import Mathlib

/-!
Shallow embedding of golkube's resource-observation subsystem.

Source files embedded here:
- `pkg/kube/configmap.go` : `WatchEvents`, `processEvent`, `EventWatcherConfig`
  (the retrying watch loop built on client-go's `retry.OnError(retry.DefaultRetry, ...)`)
- `pkg/kube/client.go`    : `WaitForResource`, `GetResource`
  (the condition poller built on `wait.PollImmediate` /
  `wait.PollUntilContextTimeout(..., immediate = true, ...)` — both revisions of the
  file evaluate the condition immediately before the first inter-poll sleep, and
  share the identical inner condition function)
- `pkg/config/parser.go` (second section, package kube) : `summarizePodStatus`

Go errors are modelled as an inductive type where `fmt.Errorf("...: %w", err)`
becomes the `wrapped` constructor; `k8sErrors.IsNotFound` unwraps through the
`%w` chain (it uses `errors.As`), which `IsNotFound` below mirrors.
Durations are modelled in milliseconds as `Nat`.
-/

/-- Model of a Go `error` value as produced and consumed by this repository:
leaf errors the Kubernetes client can return, plus `wrapped` for
`fmt.Errorf("msg: %w", cause)`. -/
inductive GoError where
  | deadlineExceeded : GoError
  | connReset : GoError
  | requestTimeout : GoError
  | serverInternal (code : Nat) : GoError
  | badRequest : GoError
  | unknownResourceType : GoError
  | notFoundStatus : GoError
  | wrapped (msg : String) (cause : GoError) : GoError
deriving DecidableEq

/-- `k8sErrors.IsNotFound` : true on a StatusError with reason NotFound, and it
sees through `fmt.Errorf("...: %w", err)` wrapping (implemented with
`errors.As`, which walks the unwrap chain). -/
def IsNotFound : GoError → Bool
  | .notFoundStatus => true
  | .wrapped _ cause => IsNotFound cause
  | _ => false

/-- Model of `watch.EventType` (a Go string type). The source switches on the
constants `watch.Added`, `watch.Modified`, `watch.Deleted`; every other value
(`BOOKMARK`, `ERROR`, ...) falls to the `default` branch, modelled by `Other`. -/
inductive EventType where
  | Added : EventType
  | Modified : EventType
  | Deleted : EventType
  | Other (s : String) : EventType
deriving DecidableEq

/-- Model of `watch.Event`: an event type plus the delivered `runtime.Object`,
whose payload type is abstract (`α`). -/
structure Event (α : Type) where
  type : EventType
  object : α
deriving DecidableEq

/-- A Go panic value raised by a handler (`panic(v)`); the payload is opaque,
modelled as a string. -/
abbrev Panic := String

/-- Which of the three `EventWatcherConfig` callbacks was invoked. -/
inductive HandlerKind where
  | onAdd : HandlerKind
  | onModify : HandlerKind
  | onDelete : HandlerKind
deriving DecidableEq

/-- Model of `EventWatcherConfig`'s handler fields `OnAdd`, `OnModify`,
`OnDelete : func(runtime.Object)`. A Go handler either returns normally or
panics, so it is modelled as `α → Option Panic` (`none` = normal return);
a `nil` handler field is `Option.none` at the outer layer. The non-handler
fields (namespace, selectors, retry interval/timeout) enter the watch-loop
model separately. -/
structure EventWatcherConfig (α : Type) where
  onAdd : Option (α → Option Panic)
  onModify : Option (α → Option Panic)
  onDelete : Option (α → Option Panic)

/-- `processEvent(event, config)` from `pkg/kube/configmap.go`: switch on
`event.Type`; for Added/Modified/Deleted invoke the corresponding handler if it
is non-nil; `default:` logs "Unknown event type" and does nothing. The result
records the invocations performed (at most one) and the panic, if the invoked
handler panicked — Go has no `recover` here, so a panic propagates to the
caller. -/
def processEvent (event : Event α) (config : EventWatcherConfig α) :
    List (HandlerKind × α) × Option Panic :=
  match event.type with
  | .Added =>
    match config.onAdd with
    | some h => ([(.onAdd, event.object)], h event.object)
    | none => ([], none)
  | .Modified =>
    match config.onModify with
    | some h => ([(.onModify, event.object)], h event.object)
    | none => ([], none)
  | .Deleted =>
    match config.onDelete with
    | some h => ([(.onDelete, event.object)], h event.object)
    | none => ([], none)
  | .Other _ => ([], none)

/-- The dispatch loop inside `WatchEvents`:
`for event := range watcher.ResultChan() { processEvent(event, config) }`.
The channel's delivered events are the list `events` (arrival order); the loop
consumes them one at a time, calling `processEvent` synchronously. The result
is the concatenated invocation trace and, when a handler panicked, the panic —
which aborts the loop at that event (no `recover` anywhere in the file). -/
def dispatchEvents (events : List (Event α)) (config : EventWatcherConfig α) :
    List (HandlerKind × α) × Option Panic :=
  match events with
  | [] => ([], none)
  | e :: rest =>
    match processEvent e config with
    | (inv, some p) => (inv, some p)
    | (inv, none) =>
      let r := dispatchEvents rest config
      (inv ++ r.1, r.2)

/-! Condition poller: `WaitForResource` from `pkg/kube/client.go`. -/

/-- What one `Get` against the dynamic client returns, before `GetResource`
wraps it: the resource, a not-found status error, or some other error. The
sequence of fetch outcomes across poll iterations is modelled as a function
from the (0-based) poll index. -/
inductive FetchResult (α : Type) where
  | found (s : α) : FetchResult α
  | notFound : FetchResult α
  | otherErr (e : GoError) : FetchResult α
deriving DecidableEq

/-- `GetResource` from `pkg/kube/client.go`: on a not-found error it returns
`fmt.Errorf("resource not found: %w", err)`; on any other error
`fmt.Errorf("failed to get resource: %w", err)`; otherwise the resource. -/
def GetResource (r : FetchResult α) : Except GoError α :=
  match r with
  | .found s => .ok s
  | .notFound => .error (.wrapped "resource not found" .notFoundStatus)
  | .otherErr e => .error (.wrapped "failed to get resource" e)

/-- The condition function `WaitForResource` passes to the poller:
fetch via `GetResource`; on error, not-found yields `(false, nil)` ("keep
waiting"), any other error yields `(false, err)`; on success it returns
`(condition(resource), nil)`. -/
def waitCondition (condition : α → Bool) (r : FetchResult α) :
    Bool × Option GoError :=
  match GetResource r with
  | .error e => if IsNotFound e then (false, none) else (false, some e)
  | .ok s => (condition s, none)

/-- Terminal outcome of one poll loop. -/
inductive PollOutcome where
  | satisfied : PollOutcome
  | timedOut : PollOutcome
  | errored (e : GoError) : PollOutcome
deriving DecidableEq

/-- Observable summary of a finished poll loop: its outcome, how many times the
condition function ran (`checks`), and how many full poll-interval sleeps were
performed (`sleeps`). -/
structure PollRun where
  outcome : PollOutcome
  checks : Nat
  sleeps : Nat
deriving DecidableEq

/-- The polling loop of `wait.PollImmediate(2*time.Second, timeout, condFn)` /
`wait.PollUntilContextTimeout(ctx, 2*time.Second, timeout, true, condFn)`:
the condition runs immediately (before any sleep), then once per interval tick.
`fuel` is the number of interval ticks the timeout still allows after the
current check, and `idx` the current 0-based check index; one full
poll-interval sleep precedes every check except check 0, so `sleeps = idx` at
termination. An error from the condition ends the wait with that error; `done`
ends it with success; running out of ticks returns the timeout outcome. -/
def pollAux (condFn : Nat → Bool × Option GoError) :
    Nat → Nat → Bool × Option GoError → PollRun
  | _, idx, (_, some e) => ⟨.errored e, idx + 1, idx⟩
  | _, idx, (true, none) => ⟨.satisfied, idx + 1, idx⟩
  | 0, idx, (false, none) => ⟨.timedOut, idx + 1, idx⟩
  | fuel + 1, idx, (false, none) => pollAux condFn fuel (idx + 1) (condFn (idx + 1))

/-- The poll loop entered at check `idx`: evaluate the condition there and
continue per `pollAux`. -/
def pollFrom (condFn : Nat → Bool × Option GoError) (fuel idx : Nat) :
    PollRun :=
  pollAux condFn fuel idx (condFn idx)

/-- `WaitForResource` from `pkg/kube/client.go`: poll immediately and then on a
fixed interval, with the condition function built from `GetResource` and the
caller's predicate. `fetch` gives the cluster's answer to each poll's `Get`,
and `fuel` the number of interval ticks the `timeout` budget allows. -/
def WaitForResource (condition : α → Bool) (fetch : Nat → FetchResult α)
    (fuel : Nat) : PollRun :=
  pollFrom (fun i => waitCondition condition (fetch i)) fuel 0

/-! Pod status summary: `summarizePodStatus` from the kube monitor file
(second section of `pkg/config/parser.go`). -/

/-- Model of `corev1.ConditionStatus` ("True", "False", "Unknown"). -/
inductive ConditionStatus where
  | ConditionTrue : ConditionStatus
  | ConditionFalse : ConditionStatus
  | ConditionUnknown : ConditionStatus
deriving DecidableEq

/-- Model of `corev1.PodConditionType`; the source only compares against
`corev1.PodReady`, every other type is inert. -/
inductive PodConditionType where
  | PodReady : PodConditionType
  | OtherType (s : String) : PodConditionType
deriving DecidableEq

/-- Model of `corev1.PodCondition`: the two fields the source reads. -/
structure PodCondition where
  type : PodConditionType
  status : ConditionStatus
deriving DecidableEq

/-- Model of `corev1.PodStatus`: the `Conditions` slice. -/
structure PodStatus where
  conditions : List PodCondition
deriving DecidableEq

/-- Model of `corev1.Pod`: the `Status` field. -/
structure Pod where
  status : PodStatus
deriving DecidableEq

/-! Retrying watch loop: `WatchEvents` from `pkg/kube/configmap.go`.

`WatchEvents` wraps one closure in
`retry.OnError(retry.DefaultRetry, func(err error) bool { return true }, fn)`.
client-go's `retry.DefaultRetry` is
`wait.Backoff{Steps: 5, Duration: 10ms, Factor: 1.0, Jitter: 0.1}`, and
`retry.OnError` drives `wait.ExponentialBackoff`: the closure runs up to
`Steps` times, with one backoff sleep between consecutive runs; a `nil` return
stops the loop as success; a non-retriable error is returned as-is; exhausting
the steps returns the last retriable error. With `Factor` 1.0 each sleep is
`Duration` plus a nonnegative random jitter; the model uses the 10ms base
(jitter only lengthens the sleeps, which no theorem below relies on).

The closure itself builds
`ctx, cancel := context.WithTimeout(context.Background(), config.RetryTimeout)`
— a FRESH timeout context on every attempt — then calls `client.Watch(ctx, …)`
and, on success, ranges over the result channel until it closes, returning
`nil`. In Go, `context.WithTimeout(parent, d)` sets the deadline `d` after
creation time, so `d = 0` yields a context that is already expired when
`Watch` is called, and the open attempt fails at once with a
deadline-exceeded error. The context also cuts off an attempt whose server
has not responded after `RetryTimeout`, and closes a session's channel at
that same deadline. -/

/-- What the API server does on one open attempt (the model's environment):
after `serverDelay` ms it either rejects the watch with an error or accepts
it, delivering `events` and closing the stream `sessionLen` ms after
acceptance. -/
inductive ServerResponse (α : Type) where
  | failOpen (e : GoError) : ServerResponse α
  | acceptThen (events : List (Event α)) (sessionLen : Nat) : ServerResponse α

/-- One attempt's environment: the server's response latency and behaviour. -/
structure AttemptSpec (α : Type) where
  serverDelay : Nat
  response : ServerResponse α

/-- `retry.DefaultRetry.Steps` (client-go). -/
def defaultRetrySteps : Nat := 5

/-- `retry.DefaultRetry.Duration` in milliseconds; `Factor` is 1.0, so every
backoff sleep is this base (plus jitter, not modelled). -/
def backoffDelayMs : Nat := 10

/-- The always-true retriable predicate `WatchEvents` passes to
`retry.OnError` (`return true // Always retry for this example`): it logs the
error and retries it regardless of classification. -/
def watchRetriable : GoError → Bool := fun _ => true

/-- The error the closure returns when `client.Watch` fails:
`fmt.Errorf("failed to watch events for %s: %w", config.ResourceType.Resource, err)`. -/
def watchFailWrap (resource : String) (e : GoError) : GoError :=
  .wrapped ("failed to watch events for " ++ resource) e

/-- One run of the retried closure against attempt environment `spec`, with
per-attempt context timeout `retryTimeout` (ms). Returns the closure's error
(`none` = returned nil) and the wall-clock time the attempt consumed.
If the context deadline (`retryTimeout` after attempt start; already expired
when `retryTimeout = 0`) falls at or before the server's response, the open
fails with a wrapped deadline-exceeded error. Otherwise a rejection is
wrapped and returned, and an accepted session ranges over the channel until
it closes (server-side close, or context expiry cutting the session), after
which the closure returns nil. -/
def runAttempt (resource : String) (retryTimeout : Nat)
    (spec : AttemptSpec α) : Option GoError × Nat :=
  if retryTimeout ≤ spec.serverDelay then
    (some (watchFailWrap resource .deadlineExceeded), retryTimeout)
  else
    match spec.response with
    | .failOpen e => (some (watchFailWrap resource e), spec.serverDelay)
    | .acceptThen _ sessionLen =>
      (none, min (spec.serverDelay + sessionLen) retryTimeout)

/-- Observable summary of one `WatchEvents` call: how many times the closure
ran, the error `retry.OnError` handed back (`none` = success), and the total
wall-clock time consumed by attempts and backoff sleeps. -/
structure WatchRun where
  attemptsMade : Nat
  err : Option GoError
  elapsed : Nat
deriving DecidableEq

/-- `retry.OnError(retry.DefaultRetry, watchRetriable, fn)` unrolled over the
attempt environments `world`: the last argument is the outcome of the attempt
at index `idx` that just ran, `steps` is the number of closure runs the
`Backoff.Steps` budget still allows after it, `elapsed` the time consumed
before this attempt. A nil closure return stops with success; a retriable
error is retried after one backoff sleep while steps remain (no sleep after
the final run: `if backoff.Steps == 1 break`); exhaustion returns the last
retriable error in place of `ErrWaitTimeout`; a non-retriable error is
returned immediately. -/
def onErrorAux (resource : String) (retryTimeout : Nat)
    (world : Nat → AttemptSpec α) :
    Nat → Nat → Nat → Option GoError × Nat → WatchRun
  | _, idx, elapsed, (none, dur) => ⟨idx + 1, none, elapsed + dur⟩
  | 0, idx, elapsed, (some e, dur) => ⟨idx + 1, some e, elapsed + dur⟩
  | steps + 1, idx, elapsed, (some e, dur) =>
    if watchRetriable e then
      onErrorAux resource retryTimeout world steps (idx + 1)
        (elapsed + dur + backoffDelayMs)
        (runAttempt resource retryTimeout (world (idx + 1)))
    else ⟨idx + 1, some e, elapsed + dur⟩

/-- Entry into the `retry.OnError` loop with a `Backoff.Steps` budget of
`steps`: with a zero budget the closure never runs and `ErrWaitTimeout` is
replaced by the (nil) initial `lastErr`; otherwise attempt `idx` runs and
`onErrorAux` continues with `steps - 1` runs remaining. -/
def onErrorLoop (resource : String) (retryTimeout : Nat)
    (world : Nat → AttemptSpec α) (steps idx : Nat) (lastErr : Option GoError)
    (elapsed : Nat) : WatchRun :=
  match steps with
  | 0 => ⟨idx, lastErr, elapsed⟩
  | s + 1 =>
    onErrorAux resource retryTimeout world s idx elapsed
      (runAttempt resource retryTimeout (world idx))

/-- `WatchEvents(config)`: run the retry loop with the `DefaultRetry` step
budget; a final non-nil error is wrapped as
`fmt.Errorf("event watcher failed: %w", err)`.
`resource` is `config.ResourceType.Resource`, `retryTimeout` is
`config.RetryTimeout` in ms, and `world` the per-attempt server behaviour.
Handler panics are orthogonal to this loop and modelled at `dispatchEvents`;
this model covers executions in which no handler panics. -/
def WatchEvents (resource : String) (retryTimeout : Nat)
    (world : Nat → AttemptSpec α) : WatchRun :=
  match onErrorLoop resource retryTimeout world defaultRetrySteps 0 none 0 with
  | ⟨n, some e, t⟩ => ⟨n, some (.wrapped "event watcher failed" e), t⟩
  | ⟨n, none, t⟩ => ⟨n, none, t⟩

/-- The `for _, condition := range pod.Status.Conditions` loop of
`summarizePodStatus`, carrying the mutable `status` string: a PodReady/True
condition sets "Ready" and breaks; a PodReady/False condition sets "Not Ready"
and keeps scanning; anything else leaves `status` unchanged. -/
def summarizeLoop : List PodCondition → String → String
  | [], status => status
  | c :: rest, status =>
    if c.type = .PodReady ∧ c.status = .ConditionTrue then "Ready"
    else if c.type = .PodReady ∧ c.status = .ConditionFalse then
      summarizeLoop rest "Not Ready"
    else summarizeLoop rest status

/-- `summarizePodStatus(pod)`: scan `pod.Status.Conditions` starting from
"Unknown" as above. -/
def summarizePodStatus (pod : Pod) : String :=
  summarizeLoop pod.status.conditions "Unknown"

/-! Theorems about the event dispatcher. -/

/-- The invocation an event produces in the dispatch loop when all three
handlers are present: recognized kinds map to their handler, anything else is
dropped. This is the "event sequence filtered to recognized kinds". -/
def recognizedInvocation (e : Event α) : Option (HandlerKind × α) :=
  match e.type with
  | .Added => some (.onAdd, e.object)
  | .Modified => some (.onModify, e.object)
  | .Deleted => some (.onDelete, e.object)
  | .Other _ => none

/-- Claim C1: for every finite sequence of events delivered on one open watch
stream, the dispatch loop of `WatchEvents` invokes the matching handlers one
at a time, in exactly the order the events arrived, each handler call
completing before the next event is consumed (as no handler panics, i.e.
each returns normally on every input): the handler-invocation sequence is
exactly the event sequence filtered to recognized kinds, in arrival order,
and no panic escapes. -/
theorem c1_dispatch_order (α : Type) (a m d : α → Option Panic)
    (events : List (Event α))
    (ha : ∀ x, a x = none) (hm : ∀ x, m x = none) (hd : ∀ x, d x = none) :
    dispatchEvents events ⟨some a, some m, some d⟩
      = (events.filterMap recognizedInvocation, none) := by
  induction events with
  | nil => rfl
  | cons e rest ih =>
    obtain ⟨ty, obj⟩ := e
    cases ty <;>
      simp [dispatchEvents, processEvent, recognizedInvocation, ha, hm, hd, ih]

/-- Concrete instance of C1: four events (one of an unrecognized kind) with
never-panicking handlers yield exactly the recognized invocations in order. -/
theorem c1_dispatch_order_witness :
    dispatchEvents
      [⟨.Added, 1⟩, ⟨.Other "BOOKMARK", 2⟩, ⟨.Modified, 3⟩, ⟨.Deleted, 4⟩]
      (⟨some (fun _ => none), some (fun _ => none), some (fun _ => none)⟩ :
        EventWatcherConfig Nat)
      = ([(.onAdd, 1), (.onModify, 3), (.onDelete, 4)], none) :=
  c1_dispatch_order Nat (fun _ => none) (fun _ => none) (fun _ => none)
    [⟨.Added, 1⟩, ⟨.Other "BOOKMARK", 2⟩, ⟨.Modified, 3⟩, ⟨.Deleted, 4⟩]
    (fun _ => rfl) (fun _ => rfl) (fun _ => rfl)

/-- Counterexample to claim C4 as stated: `processEvent` has no `recover`, so
when the handler for event 1 panics, the dispatch loop does NOT continue with
event 2 — the run ends with the panic and the invocation for event 2 never
happens (the claim demands that event N+1 still be consumed and dispatched). -/
theorem c4_counterexample :
    dispatchEvents [⟨.Added, 1⟩, ⟨.Added, 2⟩]
      (⟨some (fun _ => some "boom"), none, none⟩ : EventWatcherConfig Nat)
      = ([(.onAdd, 1)], some "boom") ∧
    (HandlerKind.onAdd, 2) ∉
      (dispatchEvents [⟨.Added, 1⟩, ⟨.Added, 2⟩]
        (⟨some (fun _ => some "boom"), none, none⟩ :
          EventWatcherConfig Nat)).1 := by
  decide

/-- Claim C4 (amended): a handler failure on event N is NOT contained: the
panic propagates out of `processEvent` (there is no recovery anywhere in the
dispatch loop), the loop stops at event N, and no later event is consumed or
dispatched — the run ends with exactly the invocations of event N and the
escaped panic, whatever events follow. -/
theorem c4_amended_panic_propagates (α : Type) (config : EventWatcherConfig α)
    (e : Event α) (rest : List (Event α)) (p : Panic)
    (h : (processEvent e config).2 = some p) :
    dispatchEvents (e :: rest) config
      = ((processEvent e config).1, some p) := by
  have hpe : processEvent e config = ((processEvent e config).1, some p) := by
    rw [← h]
  simp only [dispatchEvents]
  rw [hpe]

/-- Concrete instance of the amended C4: a panicking add-handler on event 1
stops the loop; the second event is never dispatched. -/
theorem c4_amended_witness :
    dispatchEvents [⟨.Added, 1⟩, ⟨.Added, 2⟩]
      (⟨some (fun _ => some "boom"), none, none⟩ : EventWatcherConfig Nat)
      = ((processEvent (⟨.Added, 1⟩ : Event Nat)
          ⟨some (fun _ => some "boom"), none, none⟩).1, some "boom") :=
  c4_amended_panic_propagates Nat ⟨some (fun _ => some "boom"), none, none⟩
    ⟨.Added, 1⟩ [⟨.Added, 2⟩] "boom" rfl

/-- Claim C9: an event whose kind is not Added/Modified/Deleted is logged and
skipped by `processEvent`: no handler is invoked for it, no panic arises, and
the consumption loop continues with the remaining events exactly as if the
event had not been there — the stream is not terminated. -/
theorem c9_unknown_kind_skipped (α : Type) (config : EventWatcherConfig α)
    (s : String) (obj : α) (rest : List (Event α)) :
    processEvent ⟨.Other s, obj⟩ config = ([], none) ∧
    dispatchEvents (⟨.Other s, obj⟩ :: rest) config
      = dispatchEvents rest config := by
  refine ⟨rfl, ?_⟩
  simp [dispatchEvents, processEvent]

/-! Theorems about the condition poller. -/

/-- Step lemma: a `(false, nil)` condition result with ticks remaining sleeps
one interval and polls again at the next index. -/
theorem pollFrom_continue (condFn : Nat → Bool × Option GoError)
    (fuel idx : Nat) (h : condFn idx = (false, none)) :
    pollFrom condFn (fuel + 1) idx = pollFrom condFn fuel (idx + 1) := by
  unfold pollFrom; rw [h]; simp [pollAux]

/-- Step lemma: an error from the condition ends the wait at once with that
error, regardless of remaining ticks. -/
theorem pollFrom_error (condFn : Nat → Bool × Option GoError)
    (fuel idx : Nat) (b : Bool) (e : GoError) (h : condFn idx = (b, some e)) :
    pollFrom condFn fuel idx = ⟨.errored e, idx + 1, idx⟩ := by
  unfold pollFrom; rw [h]; simp [pollAux]

/-- Step lemma: a `(true, nil)` condition result ends the wait with success. -/
theorem pollFrom_done (condFn : Nat → Bool × Option GoError)
    (fuel idx : Nat) (h : condFn idx = (true, none)) :
    pollFrom condFn fuel idx = ⟨.satisfied, idx + 1, idx⟩ := by
  unfold pollFrom; rw [h]; simp [pollAux]

/-- Claim C3: in `WaitForResource`'s poll loop (which is
`pollFrom (waitCondition condition ∘ fetch)` started at index 0), a poll
iteration whose fetch returns not-found yields not-done with no error and
polling continues with the next iteration, whereas an iteration whose fetch
returns any other error (any error that is not a not-found status) terminates
the wait immediately with that error wrapped by `GetResource`, even though
`fuel` further ticks were still allowed by the deadline and no further poll is
attempted: a not-found at iteration `idx` followed by an other-error at
iteration `idx + 1` ends the run at check `idx + 1` with that error. -/
theorem c3_notfound_keeps_polling_other_error_terminal (α : Type)
    (condition : α → Bool) (fetch : Nat → FetchResult α) (e : GoError)
    (fuel idx : Nat) (h0 : fetch idx = .notFound)
    (h1 : fetch (idx + 1) = .otherErr e) (he : IsNotFound e = false) :
    pollFrom (fun i => waitCondition condition (fetch i)) (fuel + 2) idx
      = ⟨.errored (.wrapped "failed to get resource" e), idx + 2, idx + 1⟩ := by
  have c0 : waitCondition condition (fetch idx)
      = ((false : Bool), (none : Option GoError)) := by
    rw [h0]; rfl
  have c1 : waitCondition condition (fetch (idx + 1))
      = (false, some (.wrapped "failed to get resource" e)) := by
    rw [h1]; simp [waitCondition, GetResource, IsNotFound, he]
  show pollFrom (fun i => waitCondition condition (fetch i)) (fuel + 1 + 1) idx
      = _
  rw [pollFrom_continue _ _ _ c0, pollFrom_error _ _ _ _ _ c1]

/-- Concrete instance of C3: not-found on poll 0, a bad-request error on
poll 1 — the wait ends at check 1 with the wrapped error, with three ticks of
deadline budget left unused. -/
theorem c3_witness :
    pollFrom (fun i => waitCondition (fun n : Nat => n == 7)
        (if i = 0 then FetchResult.notFound else .otherErr .badRequest))
      (3 + 2) 0
      = ⟨.errored (.wrapped "failed to get resource" .badRequest), 2, 1⟩ :=
  c3_notfound_keeps_polling_other_error_terminal Nat (fun n => n == 7)
    (fun i => if i = 0 then FetchResult.notFound else .otherErr .badRequest)
    .badRequest 3 0 rfl rfl rfl

/-- Claim C8: a `WaitForResource` call whose condition is satisfied by the
snapshot returned by the very first fetch succeeds after that single
fetch-and-evaluate cycle: one check, zero full poll-interval sleeps (the first
evaluation is immediate), for every remaining-tick budget. -/
theorem c8_immediate_success (α : Type) (condition : α → Bool)
    (fetch : Nat → FetchResult α) (fuel : Nat) (s : α)
    (h0 : fetch 0 = .found s) (hc : condition s = true) :
    WaitForResource condition fetch fuel = ⟨.satisfied, 1, 0⟩ := by
  have c0 : waitCondition condition (fetch 0)
      = ((true : Bool), (none : Option GoError)) := by
    rw [h0]; simp [waitCondition, GetResource, hc]
  unfold WaitForResource
  rw [pollFrom_done _ _ _ c0]

/-- Concrete instance of C8: the first fetch already satisfies the predicate;
the wait succeeds with one check and no sleep. -/
theorem c8_witness :
    WaitForResource (fun n : Nat => n == 7) (fun _ => .found 7) 5
      = ⟨.satisfied, 1, 0⟩ :=
  c8_immediate_success Nat (fun n => n == 7) (fun _ => .found 7) 5 7 rfl rfl

/-! Theorems about the retrying watch loop. -/

/-- Step lemma: when the per-attempt context deadline falls at or before the
server's response (including a zero `retryTimeout`, whose context is already
expired), the open attempt fails with a wrapped deadline-exceeded error after
consuming the full `retryTimeout`. -/
theorem runAttempt_hang (resource : String) (T : Nat) (spec : AttemptSpec α)
    (h : T ≤ spec.serverDelay) :
    runAttempt resource T spec
      = (some (watchFailWrap resource .deadlineExceeded), T) := by
  unfold runAttempt
  rw [if_pos h]

/-- Step lemma: a server rejection arriving before the context deadline is
wrapped and returned by the closure. -/
theorem runAttempt_failOpen (resource : String) (T : Nat)
    (spec : AttemptSpec α) (e : GoError) (h : spec.serverDelay < T)
    (hr : spec.response = .failOpen e) :
    runAttempt resource T spec
      = (some (watchFailWrap resource e), spec.serverDelay) := by
  unfold runAttempt
  rw [if_neg (by omega), hr]

/-- Step lemma: an accepted session ranges over the channel until it closes
(server close or context expiry), then the closure returns nil. -/
theorem runAttempt_session (resource : String) (T : Nat)
    (spec : AttemptSpec α) (events : List (Event α)) (len : Nat)
    (h : spec.serverDelay < T) (hr : spec.response = .acceptThen events len) :
    runAttempt resource T spec
      = (none, min (spec.serverDelay + len) T) := by
  unfold runAttempt
  rw [if_neg (by omega), hr]

/-- Counterexample to claim C2 as stated: an attempt that fails with the
non-transient error "unknown resource type" is NOT surfaced after a single
attempt — the watch loop retries it like any other error and only returns
after the full 5-attempt `DefaultRetry` budget, so the loop performed further
retry attempts where the claim requires an immediate abort. -/
theorem c2_counterexample :
    (WatchEvents "deployments" 100
      (fun _ => (⟨0, .failOpen .unknownResourceType⟩ : AttemptSpec Nat))).attemptsMade
        = 5 ∧
    (WatchEvents "deployments" 100
      (fun _ => (⟨0, .failOpen .unknownResourceType⟩ : AttemptSpec Nat))).attemptsMade
        ≠ 1 := by
  decide

/-- Claim C2 (amended): `WatchEvents` performs no error classification at all:
its retriable predicate answers true for EVERY error, so every stream-open
failure — non-transient (malformed request, unknown resource type) just like
transient — is retried identically until the `DefaultRetry` budget of
`defaultRetrySteps` attempts is exhausted, after which the wrapped error is
returned; no error aborts the loop early. -/
theorem c2_amended_all_errors_retried (α : Type) (resource : String)
    (T : Nat) (e : GoError) (hT : 0 < T) :
    watchRetriable e = true ∧
    WatchEvents resource T (fun _ => (⟨0, .failOpen e⟩ : AttemptSpec α))
      = ⟨defaultRetrySteps,
         some (.wrapped "event watcher failed" (watchFailWrap resource e)),
         4 * backoffDelayMs⟩ := by
  refine ⟨rfl, ?_⟩
  have hra : runAttempt resource T (⟨0, .failOpen e⟩ : AttemptSpec α)
      = (some (watchFailWrap resource e), 0) :=
    runAttempt_failOpen resource T _ e hT rfl
  simp only [WatchEvents, onErrorLoop, defaultRetrySteps, onErrorAux, hra,
    watchRetriable, if_true, backoffDelayMs]

/-- Concrete instance of the amended C2: the non-transient "unknown resource
type" error is retried through all five attempts and only then surfaced. -/
theorem c2_amended_witness :
    watchRetriable .unknownResourceType = true ∧
    WatchEvents "deployments" 100
      (fun _ => (⟨0, .failOpen .unknownResourceType⟩ : AttemptSpec Nat))
      = ⟨defaultRetrySteps,
         some (.wrapped "event watcher failed"
           (watchFailWrap "deployments" .unknownResourceType)),
         4 * backoffDelayMs⟩ :=
  c2_amended_all_errors_retried Nat "deployments" 100 .unknownResourceType
    (by decide)

/-- Counterexample to claim C5 as stated: one successfully opened session
whose event channel then closes does NOT trigger a fresh reconnection cycle —
the closure returns nil, `retry.OnError` treats that as success, and
`WatchEvents` returns nil to the caller after exactly one attempt, with
neither a cancellation nor an exhausted retry budget. -/
theorem c5_counterexample :
    (WatchEvents "pods" 100
      (fun _ => (⟨1, .acceptThen [⟨.Added, 0⟩] 3⟩ : AttemptSpec Nat))).attemptsMade
        = 1 ∧
    (WatchEvents "pods" 100
      (fun _ => (⟨1, .acceptThen [⟨.Added, 0⟩] 3⟩ : AttemptSpec Nat))).err
        = none := by
  decide

/-- Claim C5 (amended): whenever the first attempt successfully opens a
stream (the server accepts before the per-attempt deadline), the session's
eventual channel close makes the closure return nil, which `retry.OnError`
treats as success: `WatchEvents` returns nil to the caller after that single
attempt and never starts a reconnection cycle. -/
theorem c5_amended_session_end_returns (α : Type) (resource : String)
    (T : Nat) (world : Nat → AttemptSpec α) (events : List (Event α))
    (len : Nat) (h1 : (world 0).serverDelay < T)
    (h2 : (world 0).response = .acceptThen events len) :
    WatchEvents resource T world
      = ⟨1, none, min ((world 0).serverDelay + len) T⟩ := by
  have hra : runAttempt resource T (world 0)
      = (none, min ((world 0).serverDelay + len) T) :=
    runAttempt_session resource T _ events len h1 h2
  simp only [WatchEvents, onErrorLoop, defaultRetrySteps, onErrorAux, hra,
    Nat.zero_add]

/-- Concrete instance of the amended C5: a session that opens after 1 ms and
closes 3 ms later ends the whole watch call with success after one attempt. -/
theorem c5_amended_witness :
    WatchEvents "pods" 100
      (fun _ => (⟨1, .acceptThen [⟨.Added, 0⟩] 3⟩ : AttemptSpec Nat))
      = ⟨1, none, min (1 + 3) 100⟩ :=
  c5_amended_session_end_returns Nat "pods" 100
    (fun _ => ⟨1, .acceptThen [⟨.Added, 0⟩] 3⟩) [⟨.Added, 0⟩] 3
    (by decide) rfl

/-- Counterexample to claim C6 as stated: with `RetryTimeout = 100` ms and a
server that never responds within the deadline, every one of the five open
attempts consumes the full 100 ms — the timeout context is created afresh
inside each attempt — so by the time the loop gives up it has spent
5 * 100 + 4 * 10 = 540 ms, far more than the claimed overall budget of
100 ms measured once from the first attempt. -/
theorem c6_counterexample :
    (WatchEvents "pods" 100
      (fun _ => (⟨1000, .failOpen .connReset⟩ : AttemptSpec Nat))).elapsed
        = 540 ∧
    ¬ (WatchEvents "pods" 100
      (fun _ => (⟨1000, .failOpen .connReset⟩ : AttemptSpec Nat))).elapsed
        ≤ 100 ∧
    (WatchEvents "pods" 100
      (fun _ => (⟨1000, .failOpen .connReset⟩ : AttemptSpec Nat))).err.isSome
        = true := by
  decide

/-- Claim C6 (amended): `RetryTimeout` is NOT an overall budget: a fresh
timeout context is created inside every attempt, so each attempt is
individually time-boxed to `RetryTimeout` and the loop is bounded only by the
`DefaultRetry` step budget. Against a server that never answers within the
deadline, the loop runs all `defaultRetrySteps` attempts — cumulatively
`5 * T + 4 * backoffDelayMs` ≫ `T` — before giving up with the wrapped
deadline-exceeded error. -/
theorem c6_amended_timeout_reset_per_attempt (α : Type) (resource : String)
    (T : Nat) (world : Nat → AttemptSpec α)
    (hw : ∀ i, T ≤ (world i).serverDelay) :
    WatchEvents resource T world
      = ⟨defaultRetrySteps,
         some (.wrapped "event watcher failed"
           (watchFailWrap resource .deadlineExceeded)),
         5 * T + 4 * backoffDelayMs⟩ := by
  have hra : ∀ i, runAttempt resource T (world i)
      = (some (watchFailWrap resource .deadlineExceeded), T) :=
    fun i => runAttempt_hang resource T _ (hw i)
  simp only [WatchEvents, onErrorLoop, defaultRetrySteps, onErrorAux, hra,
    watchRetriable, if_true, backoffDelayMs, WatchRun.mk.injEq, true_and]
  omega

/-- Concrete instance of the amended C6: `RetryTimeout = 100` ms and a server
that answers only after 1000 ms — five full-deadline attempts plus four
backoff sleeps, 540 ms in total. -/
theorem c6_amended_witness :
    WatchEvents "pods" 100
      (fun _ => (⟨1000, .failOpen .connReset⟩ : AttemptSpec Nat))
      = ⟨defaultRetrySteps,
         some (.wrapped "event watcher failed"
           (watchFailWrap "pods" .deadlineExceeded)),
         5 * 100 + 4 * backoffDelayMs⟩ :=
  c6_amended_timeout_reset_per_attempt Nat "pods" 100
    (fun _ => ⟨1000, .failOpen .connReset⟩)
    (fun _ => (by decide : (100 : Nat) ≤ 1000))

/-- Counterexample to claim C7 as stated: with `RetryTimeout = 0` and a server
willing to accept the watch instantly, every open attempt is time-boxed by
`context.WithTimeout(ctx, 0)` to an already-expired deadline, fails with
deadline-exceeded, and after the five-attempt budget `WatchEvents` returns a
watch-establishment failure on its own — it neither retries indefinitely nor
avoids the expired deadline. -/
theorem c7_counterexample :
    (WatchEvents "pods" 0
      (fun _ => (⟨0, .acceptThen [] 5⟩ : AttemptSpec Nat))).err
      = some (.wrapped "event watcher failed"
          (watchFailWrap "pods" .deadlineExceeded)) ∧
    (WatchEvents "pods" 0
      (fun _ => (⟨0, .acceptThen [] 5⟩ : AttemptSpec Nat))).attemptsMade
      = 5 := by
  constructor
  · rfl
  · rfl

/-- Claim C7 (amended): a zero `RetryTimeout` does not mean "retry
indefinitely": `context.WithTimeout(Background(), 0)` is already expired when
`Watch` is called, so every open attempt fails immediately with
deadline-exceeded regardless of the server's behaviour, and after the
`DefaultRetry` budget `WatchEvents` returns a watch-establishment error,
having consumed only the four backoff sleeps. -/
theorem c7_amended_zero_timeout_fails (α : Type) (resource : String)
    (world : Nat → AttemptSpec α) :
    WatchEvents resource 0 world
      = ⟨defaultRetrySteps,
         some (.wrapped "event watcher failed"
           (watchFailWrap resource .deadlineExceeded)),
         4 * backoffDelayMs⟩ := by
  have hra : ∀ i, runAttempt resource 0 (world i)
      = (some (watchFailWrap resource .deadlineExceeded), 0) :=
    fun i => runAttempt_hang resource 0 _ (Nat.zero_le _)
  simp only [WatchEvents, onErrorLoop, defaultRetrySteps, onErrorAux, hra,
    watchRetriable, if_true, backoffDelayMs]

/-! Theorems about the pod status summary. -/

/-- Characterization of the `summarizePodStatus` scan: a PodReady/True
condition anywhere in the list wins (the loop only breaks on it), a
PodReady/False condition with no PodReady/True anywhere yields "Not Ready",
and otherwise the accumulator is returned unchanged. -/
theorem summarizeLoop_eq (cs : List PodCondition) (status : String) :
    summarizeLoop cs status =
      if ∃ c ∈ cs, c.type = .PodReady ∧ c.status = .ConditionTrue then "Ready"
      else if ∃ c ∈ cs, c.type = .PodReady ∧ c.status = .ConditionFalse then
        "Not Ready"
      else status := by
  induction cs generalizing status with
  | nil => simp [summarizeLoop]
  | cons c rest ih =>
    by_cases h1 : c.type = .PodReady ∧ c.status = .ConditionTrue
    · simp [summarizeLoop, h1]
    · by_cases h2 : c.type = .PodReady ∧ c.status = .ConditionFalse
      · rw [summarizeLoop, if_neg h1, if_pos h2, ih]
        simp [h1, h2]
      · rw [summarizeLoop, if_neg h1, if_neg h2, ih]
        simp [h1, h2]

/-- Counterexample to claim C10 as stated: the condition list
[PodReady/False, PodReady/True] contains a PodReady/False condition (at index
0) with no PodReady/True condition before it, so the claim requires
"Not Ready" — but the loop only breaks on PodReady/True, so the later True
condition overwrites the earlier "Not Ready" and the code returns "Ready". -/
theorem c10_counterexample :
    summarizePodStatus
        ⟨⟨[⟨.PodReady, .ConditionFalse⟩, ⟨.PodReady, .ConditionTrue⟩]⟩⟩
      = "Ready" ∧
    (⟨⟨[⟨.PodReady, .ConditionFalse⟩, ⟨.PodReady, .ConditionTrue⟩]⟩⟩ :
        Pod).status.conditions.get? 0 = some ⟨.PodReady, .ConditionFalse⟩ ∧
    summarizePodStatus
        ⟨⟨[⟨.PodReady, .ConditionFalse⟩, ⟨.PodReady, .ConditionTrue⟩]⟩⟩
      ≠ "Not Ready" := by
  decide

/-- Claim C10 (amended): `summarizePodStatus` returns "Ready" iff the pod's
condition list contains a PodReady condition with status True (anywhere, not
merely before any PodReady/False); "Not Ready" iff it contains a
PodReady/False condition and no PodReady/True condition anywhere in the list;
and "Unknown" otherwise. -/
theorem c10_amended_pod_status_characterization (pod : Pod) :
    (summarizePodStatus pod = "Ready" ↔
      ∃ c ∈ pod.status.conditions,
        c.type = .PodReady ∧ c.status = .ConditionTrue) ∧
    (summarizePodStatus pod = "Not Ready" ↔
      ((∃ c ∈ pod.status.conditions,
          c.type = .PodReady ∧ c.status = .ConditionFalse) ∧
        ¬ ∃ c ∈ pod.status.conditions,
          c.type = .PodReady ∧ c.status = .ConditionTrue)) ∧
    (summarizePodStatus pod = "Unknown" ↔
      ((¬ ∃ c ∈ pod.status.conditions,
          c.type = .PodReady ∧ c.status = .ConditionTrue) ∧
        ¬ ∃ c ∈ pod.status.conditions,
          c.type = .PodReady ∧ c.status = .ConditionFalse)) := by
  unfold summarizePodStatus
  rw [summarizeLoop_eq]
  by_cases h1 : ∃ c ∈ pod.status.conditions,
      c.type = .PodReady ∧ c.status = .ConditionTrue
  · simp [h1]
  · by_cases h2 : ∃ c ∈ pod.status.conditions,
        c.type = .PodReady ∧ c.status = .ConditionFalse
    · simp [h1, h2]
    · simp [h1, h2]
